import Mathlib

/-!
Shallow embedding of the hikari single-shard gateway client, translated from
`src/hikari/net/gateway.py` (class `Gateway`) and
`src/hikari/clients/shards.py` (class `ShardClientImpl`).

Machine floats that the source uses only as monotonic clock readings and
interval lengths are modelled as `Rat`; the `float("nan")` sentinel used to
mean "absent" is modelled as `Option.none` (any `<` comparison against NaN
is false in Python, and `opt_lt` below reproduces that).  Python dynamic
values flowing through the presence code are modelled by the small dynamic
type `PyVal`, with attribute accesses that raise `AttributeError` exactly
where CPython would.
-/

namespace Hikari

/-- Python-level exceptions that the embedded code paths can raise. -/
inductive PyErr
  | attributeError
  | keyError
  | sendError
deriving DecidableEq

/-- Modelled from the spec: `hikari.models.guilds.PresenceStatus` is not under
`src/`; the spec (§3 "Presence state") says it is an enum of
online/idle/dnd/invisible whose `.value` is the lower-case wire string. -/
inductive PresenceStatus
  | online
  | idle
  | dnd
  | invisible
deriving DecidableEq

/-- The Python enum member's `.value` attribute. -/
def PresenceStatus.value : PresenceStatus → String
  | .online => "online"
  | .idle => "idle"
  | .dnd => "dnd"
  | .invisible => "invisible"

/-- The Python enum member's `.name` attribute (upper-case member name). -/
def PresenceStatus.enum_name : PresenceStatus → String
  | .online => "ONLINE"
  | .idle => "IDLE"
  | .dnd => "DND"
  | .invisible => "INVISIBLE"

/-- `hikari.net.gateway.Activity`: attrs class with fields `name`,
`url` (optional) and `type` (an int enum, modelled as `Int`). -/
structure Activity where
  name : String
  url : Option String
  type : Int
deriving DecidableEq

/-- A dynamic Python value as it can appear in the presence code paths.
`datetime` is represented by its POSIX timestamp in seconds (`.timestamp()`),
`serializedActivity` stands for the opaque result of `activity.serialize()`
in `shards.py` (the method is not under `src/`). -/
inductive PyVal
  | none
  | bool (b : Bool)
  | rat (q : Rat)
  | int (i : Int)
  | str (s : String)
  | status (s : PresenceStatus)
  | datetime (ts : Rat)
  | activity (a : Activity)
  | serializedActivity (a : Activity)
deriving DecidableEq

/-- Python `x is None`. -/
def PyVal.is_none : PyVal → Bool
  | .none => true
  | _ => false

/-- The `hikari.models.unset` tagged option: an argument is either the
`UNSET` sentinel or a real value (which may itself be `None`). -/
inductive Upd (α : Type)
  | unset
  | set (v : α)
deriving DecidableEq

/-- Python `x if not unset.is_unset(x) else stored`. -/
def fallback_unset : Upd PyVal → PyVal → PyVal
  | .unset, stored => stored
  | .set v, _ => v

/-- Attribute access `obj.name`: `Activity` has a `name` field and a Python
enum member has a `.name`; everything else raises `AttributeError`. -/
def attr_name : PyVal → Except PyErr String
  | .activity a => .ok a.name
  | .status s => .ok s.enum_name
  | _ => .error .attributeError

/-- Attribute access `obj.url`: only `Activity` has it. -/
def attr_url : PyVal → Except PyErr PyVal
  | .activity a =>
      .ok (match a.url with
           | some u => .str u
           | none => .none)
  | _ => .error .attributeError

/-- Attribute access `obj.type`: only `Activity` has it. -/
def attr_type : PyVal → Except PyErr PyVal
  | .activity a => .ok (.int a.type)
  | _ => .error .attributeError

/-- Method call `obj.timestamp()`: only `datetime` has it; returns POSIX
seconds. -/
def attr_timestamp : PyVal → Except PyErr Rat
  | .datetime ts => .ok ts
  | _ => .error .attributeError

/-- Attribute access `obj.value`: a Python enum member has a `.value`. -/
def attr_value : PyVal → Except PyErr String
  | .status s => .ok s.value
  | _ => .error .attributeError

/-- The `game` sub-object `{"name": ..., "url": ..., "type": ...}` built by
`Gateway._build_presence_payload`. -/
structure GamePayload where
  name : PyVal
  url : PyVal
  type : PyVal
deriving DecidableEq

/-- The dict returned by `Gateway._build_presence_payload`: exactly the keys
`since`, `afk`, `status`, `game` (in source order). -/
structure PresencePayload where
  since : PyVal
  afk : PyVal
  status : PyVal
  game : Option GamePayload
deriving DecidableEq

/-- The fields of `hikari.net.gateway.Gateway` that the verified code paths
read or write.  Monotonic clock readings and `heartbeat_interval` use
`Option Rat` with `none` standing for the `float("nan")` sentinel. -/
structure GatewayState where
  token : String
  seq : Option Int
  session_id : Option String
  shard_id : Nat
  shard_count : Nat
  large_threshold : Nat
  intents : Option Int
  idle_since : PyVal
  is_afk : PyVal
  status : PyVal
  activity : PyVal
  heartbeat_interval : Option Rat
  last_message_received : Option Rat
  last_heartbeat_sent : Option Rat
  handshake_set : Bool
  zombied : Bool
deriving DecidableEq

/-- A gateway right after `__init__` with no initial presence: `seq` and
`session_id` are `None`, presence fields are `None`, timestamps are NaN. -/
def init_state : GatewayState :=
  { token := "token"
    seq := .none
    session_id := .none
    shard_id := 0
    shard_count := 1
    large_threshold := 250
    intents := .none
    idle_since := PyVal.none
    is_afk := PyVal.none
    status := PyVal.none
    activity := PyVal.none
    heartbeat_interval := .none
    last_message_received := .none
    last_heartbeat_sent := .none
    handshake_set := false
    zombied := false }

/-- `Gateway._build_presence_payload(self, idle_since, is_afk, status,
activity)` (gateway.py 650-682).  Each `UNSET` parameter falls back to the
stored field; `game` is `None` or the dict of the activity's `name`, `url`
and `type` attributes; `since` is `idle_since.timestamp()` (POSIX seconds)
or `None`; `afk` defaults to `False`; `status` defaults to
`PresenceStatus.ONLINE.value`.  Attribute accesses are performed on whatever
dynamic value ended up in the parameter, raising `AttributeError` exactly as
CPython would. -/
def build_presence_payload (st : GatewayState)
    (idle_since is_afk status activity : Upd PyVal) :
    Except PyErr PresencePayload := do
  let idle_since := fallback_unset idle_since st.idle_since
  let is_afk := fallback_unset is_afk st.is_afk
  let status := fallback_unset status st.status
  let activity := fallback_unset activity st.activity
  let game : Option GamePayload ←
    if activity.is_none then
      pure Option.none
    else do
      let n ← attr_name activity
      let u ← attr_url activity
      let t ← attr_type activity
      pure (Option.some { name := .str n, url := u, type := t })
  let since : PyVal ←
    if idle_since.is_none then
      pure PyVal.none
    else do
      pure (.rat (← attr_timestamp idle_since))
  let afk : PyVal := if is_afk.is_none then .bool false else is_afk
  let status_val : PyVal ←
    if status.is_none then
      pure (.str PresenceStatus.online.value)
    else do
      pure (.str (← attr_value status))
  pure { since := since, afk := afk, status := status_val, game := game }

/-- `ShardClientImpl._create_presence_pl` (shards.py 564-576): a dict with
keys `status`, `idle_since`, `game`, `afk` (in source order), where
`idle_since` is `idle_since.timestamp() * 1000` (milliseconds) or `None` and
`game` is `activity.serialize()` or `None`. -/
def create_presence_pl (status : PresenceStatus) (activity : Option Activity)
    (idle_since : Option Rat) (is_afk : Bool) : List (String × PyVal) :=
  [("status", .status status),
   ("idle_since",
      match idle_since with
      | some ts => .rat (ts * 1000)
      | none => PyVal.none),
   ("game",
      match activity with
      | some a => .serializedActivity a
      | none => PyVal.none),
   ("afk", .bool is_afk)]

/-- `Gateway.update_presence` (gateway.py 388-417).  The payload is built by
the positional call `self._build_presence_payload(idle_since, is_afk,
activity, status)`; since `_build_presence_payload`'s positional parameters
are `(idle_since, is_afk, status, activity)`, the caller's `activity`
argument lands in the builder's `status` slot and vice versa, exactly as in
the source.  The frame is then sent (`send_ok` says whether
`self._send_json` succeeds), and only after a successful send are the four
stored presence fields assigned, each one kept unchanged when its argument
was `UNSET`. -/
def update_presence (st : GatewayState)
    (idle_since is_afk activity status : Upd PyVal) (send_ok : Bool) :
    GatewayState × Except PyErr PresencePayload :=
  match build_presence_payload st idle_since is_afk activity status with
  | .error e => (st, .error e)
  | .ok payload =>
      if send_ok then
        ({ st with
            idle_since := fallback_unset idle_since st.idle_since
            is_afk := fallback_unset is_afk st.is_afk
            activity := fallback_unset activity st.activity
            status := fallback_unset status st.status },
         .ok payload)
      else
        (st, .error .sendError)

/-- Errors raised out of `Gateway._handshake`. -/
inductive GatewayErr
  | notHello (op : Int)
  | presenceError (e : PyErr)
deriving DecidableEq

/-- The first frame the client sends after HELLO. -/
inductive SentFrame
  | resume (token : String) (seq : Option Int) (session_id : String)
  | identify (token : String) (compress : Bool) (large_threshold : Nat)
      (shard_id : Nat) (shard_count : Nat) (intents : Option Int)
      (presence : Option PresencePayload)
deriving DecidableEq

/-- The first received frame as `Gateway._handshake` inspects it: its `op`
and, read only when `op = 10`, the `d["heartbeat_interval"]` value in
milliseconds. -/
structure HandshakeMsg where
  op : Int
  heartbeat_interval_ms : Rat
deriving DecidableEq

/-- `Gateway._handshake` (gateway.py 459-500).  Requires op HELLO (10),
stores `heartbeat_interval = d.heartbeat_interval / 1000`, then sends RESUME
`{token, seq, session_id}` when `self._session_id is not None`, else
IDENTIFY; `presence` is attached to IDENTIFY only when at least one stored
presence field is not `None` (source order: activity, idle_since, is_afk,
status).  The `properties` constant of IDENTIFY
(`user_agents.UserAgent().websocket_triplet`, not under `src/`) carries no
information relevant to the claims and is omitted from `SentFrame`. -/
def handshake (st : GatewayState) (msg : HandshakeMsg) :
    Except GatewayErr (GatewayState × SentFrame) :=
  if msg.op ≠ 10 then
    .error (.notHello msg.op)
  else
    let st1 : GatewayState :=
      { st with heartbeat_interval := some (msg.heartbeat_interval_ms / 1000) }
    match st1.session_id with
    | some sid =>
        .ok (st1, .resume st1.token st1.seq sid)
    | none =>
        if !st1.activity.is_none || !st1.idle_since.is_none
            || !st1.is_afk.is_none || !st1.status.is_none then
          match build_presence_payload st1 .unset .unset .unset .unset with
          | .error e => .error (.presenceError e)
          | .ok p =>
              .ok (st1, .identify st1.token false st1.large_threshold
                    st1.shard_id st1.shard_count st1.intents (some p))
        else
          .ok (st1, .identify st1.token false st1.large_threshold
                st1.shard_id st1.shard_count st1.intents none)

/-- The tuple membership test for `can_reconnect` in
`Gateway._receive_json_payload` (gateway.py 591-597), in source order:
`DECODE_ERROR, INVALID_SEQ, UNKNOWN_ERROR, SESSION_TIMEOUT, RATE_LIMITED`. -/
def can_reconnect_code (close_code : Int) : Bool :=
  close_code == 4002 || close_code == 4007 || close_code == 4000
    || close_code == 4009 || close_code == 4008

/-- The `GatewayServerClosedConnectionError(reason, close_code,
can_reconnect, ...)` raised for a CLOSE frame; only the fields the claims
talk about. -/
structure ServerClosedError where
  close_code : Int
  can_reconnect : Bool
deriving DecidableEq

/-- The CLOSE branch of `Gateway._receive_json_payload` (gateway.py
582-599): raise the server-closed error carrying the peer close code and the
`can_reconnect` flag. -/
def handle_close_frame (close_code : Int) : ServerClosedError :=
  { close_code := close_code, can_reconnect := can_reconnect_code close_code }

/-- NaN-aware subtraction: `none` models `float("nan")` and propagates. -/
def opt_sub : Option Rat → Option Rat → Option Rat
  | some a, some b => some (a - b)
  | _, _ => none

/-- NaN-aware `<`: any comparison involving NaN is false in Python. -/
def opt_lt (a b : Option Rat) : Bool :=
  match a, b with
  | some x, some y => decide (x < y)
  | _, _ => false

/-- What one iteration of the heartbeat loop does after waking up. -/
inductive PulseAction
  | closeWs (code : Int) (message : String)
  | sendHeartbeat (d : Option Int)
deriving DecidableEq

/-- One iteration of `Gateway._pulse` (gateway.py 502-532): compute
`time_since_message = now - last_message_received`; if
`heartbeat_interval < time_since_message` mark zombied, close the socket
with code 3000 and message "zombie connection" and return (the `closeWs`
action ends the loop); otherwise send `{op: HEARTBEAT, d: seq}` and set
`last_heartbeat_sent = now`. -/
def pulse_step (st : GatewayState) (now : Rat) : GatewayState × PulseAction :=
  let time_since_message := opt_sub (some now) st.last_message_received
  if opt_lt st.heartbeat_interval time_since_message then
    ({ st with zombied := true }, .closeWs 3000 "zombie connection")
  else
    ({ st with last_heartbeat_sent := some now }, .sendHeartbeat st.seq)

/-- The `await self._ws.close(...)` call performed by an exception
handler. -/
inductive CloseWsCall
  | close (code : Int) (message : String)
deriving DecidableEq

/-- The `_InvalidSession` handler of `Gateway._run_once` (gateway.py
348-356): on a resumable invalid session close with 3000 and keep the
session; otherwise close with 1000 and set both `self._seq` and
`self._session_id` to `None`.  The handler finishes before `_run_once`
returns, hence before the next attempt begins. -/
def handle_invalid_session (st : GatewayState) (can_resume : Bool) :
    GatewayState × CloseWsCall :=
  if can_resume then
    (st, .close 3000 "invalid session (resume)")
  else
    ({ st with seq := none, session_id := none },
     .close 1000 "invalid session (no resume)")

/-- The session fields of the low-level connection as seen by
`ShardClientImpl` (`self._connection.seq` / `.session_id`). -/
structure ShardConn where
  seq : Option Int
  session_id : Option String
deriving DecidableEq

/-- The `GatewayInvalidSessionError` handler of
`ShardClientImpl._keep_alive` (shards.py 442-451): when the session cannot
be resumed, set both `self._connection.seq` and
`self._connection.session_id` to `None`; otherwise leave them alone.  Either
way the handler then sleeps 5s and disables backoff for one attempt. -/
def keep_alive_handle_invalid_session (conn : ShardConn) (can_resume : Bool) :
    ShardConn :=
  if can_resume then conn else { conn with seq := none, session_id := none }

/-- How one connection attempt inside `ShardClientImpl._keep_alive` ended
(the exception kinds matched by its handlers, shards.py 434-481). -/
inductive KeepAliveOutcome
  | clientConnectorError
  | zombied
  | invalidSession (can_resume : Bool)
  | mustReconnect
  | serverClosed (close_code : Int)
  | clientDisconnected
deriving DecidableEq

/-- The close codes `_keep_alive` re-raises as fatal (shards.py 458-469):
`NOT_AUTHENTICATED, AUTHENTICATION_FAILED, ALREADY_AUTHENTICATED,
SHARDING_REQUIRED, INVALID_VERSION, INVALID_INTENT, DISALLOWED_INTENT`. -/
def keep_alive_fatal_code (c : Int) : Bool :=
  c == 4003 || c == 4004 || c == 4005 || c == 4011 || c == 4012
    || c == 4013 || c == 4014

/-- The value of the `do_not_back_off` flag after the handler for the given
outcome ran: only the invalid-session and must-reconnect handlers set it
back to `True` (shards.py 450, 455); every other handled outcome leaves the
`False` assigned at the top of the iteration (shards.py 423). -/
def do_not_back_off_after : KeepAliveOutcome → Bool
  | .invalidSession _ => true
  | .mustReconnect => true
  | _ => false

/-- `do_not_back_off` starts as `True` (shards.py 406), so the very first
attempt never backs off. -/
def keep_alive_initial_do_not_back_off : Bool := true

/-- Whether an iteration of `_keep_alive` performs the backoff sleep
(shards.py 413-420): only when `do_not_back_off` is unset and the previous
attempt started less than 30 seconds ago. -/
def backoff_sleeps (do_not_back_off : Bool) (seconds_since_last_start : Rat) :
    Bool :=
  !do_not_back_off && decide (seconds_since_last_start < 30)

/-- The `d` object of a DISPATCH frame as `Gateway._poll_events` inspects
it: only `data["session_id"]` is ever read (for READY). -/
structure DispatchData where
  session_id : Option String
deriving DecidableEq

/-- A DISPATCH frame: `t`, `s` and `d`. -/
structure DispatchMsg where
  t : String
  s : Option Int
  d : DispatchData
deriving DecidableEq

/-- The DISPATCH arm of `Gateway._poll_events` (gateway.py 541-552).  Set
`self._seq = message["s"]`; if `t == "READY"` store
`self._session_id = data["session_id"]` and set the handshake event; `elif
t == "RESUME"` set the handshake event; finally forward `(t, d)` to the
consumer as a detached task.  The returned pair is the state as it stands
when the consumer task is created, together with the forwarded `(t, d)`. -/
def poll_dispatch_step (st : GatewayState) (m : DispatchMsg) :
    Except PyErr (GatewayState × (String × DispatchData)) :=
  let st1 : GatewayState := { st with seq := m.s }
  if m.t = "READY" then
    match m.d.session_id with
    | none => .error .keyError
    | some sid =>
        .ok ({ st1 with session_id := some sid, handshake_set := true },
             (m.t, m.d))
  else if m.t = "RESUME" then
    .ok ({ st1 with handshake_set := true }, (m.t, m.d))
  else
    .ok (st1, (m.t, m.d))

/-- A websocket frame as received inside `_receive_zlib_message`. -/
inductive WSFrame
  | binary (data : List Nat)
  | text (data : String)
  | closing
deriving DecidableEq

/-- Errors out of `Gateway._receive_zlib_message`. -/
inductive ZlibRecvError
  | typeError
  | notBinary
  | wouldBlock
deriving DecidableEq

/-- The four-byte zlib stream sentinel `b"\x00\x00\xff\xff"`. -/
def zlib_sentinel : List Nat := [0x00, 0x00, 0xff, 0xff]

/-- `Gateway._receive_zlib_message` (gateway.py 611-623).  `buff` starts as
the first packet; while `buff` does not end with the sentinel, another frame
is received: a non-BINARY frame raises a gateway error, and a BINARY frame
reaches `buff.append(message.data)` — CPython's `bytearray.append` requires
an `int`, so passing the frame's `bytes` raises `TypeError` unconditionally
(the loop body can never complete; `extend` was evidently intended).  When
no further frame is available the `await` would block forever
(`wouldBlock`).  On success the source returns `(packets,
self._zlib.decompress(buff).decode("utf-8"))`; since the decompressed string
is a deterministic function of `buff` and the per-connection inflater state,
the embedding returns `(packets, buff)`. -/
def receive_zlib_message (first_packet : List Nat) (rest : List WSFrame) :
    Except ZlibRecvError (Nat × List Nat) :=
  if zlib_sentinel.isSuffixOf first_packet then
    .ok (1, first_packet)
  else
    match rest with
    | [] => .error .wouldBlock
    | .binary _ :: _ => .error .typeError
    | _ :: _ => .error .notBinary

/-- How one `Gateway._run_once` attempt ended, at the granularity the
teardown logic distinguishes: the websocket connect itself failed
(`connectError`, so `self.connected_at` was never assigned); the connect
succeeded but `_handshake` raised (`handshakeError`); or the handshake
completed and the attempt ended somewhere in or after the poll loop
(`pollExit`). -/
inductive AttemptScript
  | connectError
  | handshakeError
  | pollExit
deriving DecidableEq

/-- Whether the websocket upgrade succeeded (so `connected_at` was set). -/
def ws_connect_succeeded : AttemptScript → Bool
  | .connectError => false
  | _ => true

/-- Whether `_handshake` returned, which is the only point at which the
synthetic CONNECTED event is dispatched (gateway.py 329). -/
def handshake_completed : AttemptScript → Bool
  | .pollExit => true
  | _ => false

/-- The observable result of one `_run_once` attempt. -/
structure RunOnceEvents where
  dispatched_connected : Bool
  dispatched_disconnected : Bool
  connected_at_end : Option Rat
deriving DecidableEq

/-- The event/teardown behaviour of `Gateway._run_once` (gateway.py
315-386).  In the `try` block, `self.connected_at = self._now()` runs right
after `_create_ws` succeeds (line 318) and the CONNECTED task is created
right after `_handshake` returns (line 329).  The `finally` block (lines
377-384) dispatches DISCONNECTED iff `connected_at` is not NaN, then
unconditionally resets `connected_at` to NaN. -/
def run_once_events (script : AttemptScript) (now : Rat) : RunOnceEvents :=
  let connected_at : Option Rat :=
    match script with
    | .connectError => none
    | _ => some now
  let dispatched_connected : Bool :=
    match script with
    | .pollExit => true
    | _ => false
  { dispatched_connected := dispatched_connected
    dispatched_disconnected := connected_at.isSome
    connected_at_end := none }

/-- The reconnectable close-code set asserted by the claim, written from the
spec's words (§4.4: `4000, 4002, 4007, 4008, 4009` and normal `1000/1001`);
kept only to be compared with `can_reconnect_code`. -/
def spec_reconnectable_code (c : Int) : Bool :=
  c == 4000 || c == 4002 || c == 4007 || c == 4008 || c == 4009
    || c == 1000 || c == 1001

/-- A gateway holding a live session, about to reconnect. -/
def resume_state : GatewayState :=
  { init_state with session_id := some "abc", seq := some 42 }

/-- A HELLO frame advertising a 45000 ms heartbeat interval. -/
def hello_msg : HandshakeMsg := { op := 10, heartbeat_interval_ms := 45000 }

/-- `resume_state` after `_handshake` stored the heartbeat interval. -/
def resumed_state : GatewayState :=
  { resume_state with heartbeat_interval := some ((45000 : Rat) / 1000) }

/-- A gateway past HELLO, as the heartbeat task sees it: 45 s interval,
last message received at t = 0. -/
def pulse_state : GatewayState :=
  { init_state with
      heartbeat_interval := some 45
      last_message_received := some 0
      seq := some 42 }

/-- C1: after receiving HELLO, the first frame the connection sends is
determined solely by the stored session identity — if `session_id` is
present the frame is RESUME carrying the token, the stored `seq` and that
`session_id`; if it is absent the frame is an IDENTIFY and never a
RESUME. -/
theorem c1_first_frame_after_hello (st : GatewayState) (msg : HandshakeMsg)
    (st' : GatewayState) (f : SentFrame)
    (h : handshake st msg = Except.ok (st', f)) :
    (∀ sid, st.session_id = some sid →
        f = SentFrame.resume st.token st.seq sid)
    ∧ (st.session_id = none →
        (∃ p, f = SentFrame.identify st.token false st.large_threshold
            st.shard_id st.shard_count st.intents p)
        ∧ ∀ tk sq sid, f ≠ SentFrame.resume tk sq sid) := by
  by_cases hop : msg.op = 10
  · unfold handshake at h
    rw [if_neg (by simp [hop])] at h
    dsimp only at h
    constructor
    · intro sid hsid
      rw [hsid] at h
      injection h with h2
      injection h2 with hst hf
      exact hf.symm
    · intro hsid
      rw [hsid] at h
      dsimp only at h
      split at h
      · split at h
        · exact Except.noConfusion h
        · injection h with h2
          injection h2 with hst hf
          refine ⟨⟨_, hf.symm⟩, fun tk sq sid hcon => ?_⟩
          exact SentFrame.noConfusion (hf.trans hcon)
      · injection h with h2
        injection h2 with hst hf
        refine ⟨⟨_, hf.symm⟩, fun tk sq sid hcon => ?_⟩
        exact SentFrame.noConfusion (hf.trans hcon)
  · unfold handshake at h
    rw [if_pos hop] at h
    exact Except.noConfusion h

/-- C1 witness: a concrete reconnect with `session_id = "abc"` and
`seq = 42` sends exactly that RESUME frame. -/
theorem c1_first_frame_after_hello_witness :
    handshake resume_state hello_msg
      = Except.ok (resumed_state, SentFrame.resume "token" (some 42) "abc")
    ∧ SentFrame.resume "token" (some 42) "abc"
      = SentFrame.resume resume_state.token resume_state.seq "abc" :=
  ⟨rfl,
   (c1_first_frame_after_hello resume_state hello_msg resumed_state
      (SentFrame.resume "token" (some 42) "abc") rfl).1 "abc" rfl⟩

/-- C2 counterexample: the claim counts normal closure 1000 among the codes
with `can_reconnect = true`, but the error the code raises for close code
1000 carries `can_reconnect = false`. -/
theorem c2_counterexample :
    spec_reconnectable_code 1000 = true
    ∧ (handle_close_frame 1000).can_reconnect = false := by
  constructor <;> rfl

/-- C2 (amended): the raised server-close error carries the peer close code,
and its can-reconnect flag is true iff the code is one of 4000, 4002, 4007,
4008, 4009; every other code — including normal 1000/1001 — yields a fatal
error. -/
theorem c2_close_reconnect_flag (c : Int) :
    (handle_close_frame c).close_code = c
    ∧ ((handle_close_frame c).can_reconnect = true ↔
        (c = 4000 ∨ c = 4002 ∨ c = 4007 ∨ c = 4008 ∨ c = 4009)) := by
  refine ⟨rfl, ?_⟩
  show can_reconnect_code c = true ↔ _
  simp only [can_reconnect_code, Bool.or_eq_true, beq_iff_eq]
  tauto

/-- C2 witness: the amended flag is true at 4002. -/
theorem c2_close_reconnect_flag_witness :
    (handle_close_frame 4002).can_reconnect = true :=
  (c2_close_reconnect_flag 4002).2.mpr (by tauto)

/-- C3: on a heartbeat iteration with `heartbeat_interval` and
`last_message_received` both set, if `now - last_message_received` strictly
exceeds the interval the connection marks itself zombied and closes the
socket with code 3000 and message "zombie connection" (ending the loop);
otherwise it sends `{op: HEARTBEAT, d: seq}` and records
`last_heartbeat_sent = now`. -/
theorem c3_pulse_zombie_or_heartbeat (st : GatewayState) (now hi lm : Rat)
    (h1 : st.heartbeat_interval = some hi)
    (h2 : st.last_message_received = some lm) :
    (hi < now - lm →
      pulse_step st now
        = ({ st with zombied := true },
           PulseAction.closeWs 3000 "zombie connection"))
    ∧ (¬ hi < now - lm →
      pulse_step st now
        = ({ st with last_heartbeat_sent := some now },
           PulseAction.sendHeartbeat st.seq)) := by
  unfold pulse_step
  rw [h1, h2]
  constructor
  · intro hlt
    simp [opt_sub, opt_lt, hlt]
  · intro hlt
    simp [opt_sub, opt_lt, hlt]

/-- C3 witness: with a 45 s interval and the last message at t = 0, waking
at t = 100 zombifies and closes with 3000, while waking at t = 10 sends the
heartbeat with the stored seq. -/
theorem c3_pulse_zombie_or_heartbeat_witness :
    ((45 : Rat) < 100 - 0
      ∧ pulse_step pulse_state 100
          = ({ pulse_state with zombied := true },
             PulseAction.closeWs 3000 "zombie connection"))
    ∧ (¬ (45 : Rat) < 10 - 0
      ∧ pulse_step pulse_state 10
          = ({ pulse_state with last_heartbeat_sent := some 10 },
             PulseAction.sendHeartbeat pulse_state.seq)) :=
  ⟨⟨by norm_num,
    (c3_pulse_zombie_or_heartbeat pulse_state 100 45 0 rfl rfl).1
      (by norm_num)⟩,
   ⟨by norm_num,
    (c3_pulse_zombie_or_heartbeat pulse_state 10 45 0 rfl rfl).2
      (by norm_num)⟩⟩

/-- C4: on a non-resumable INVALID_SESSION both `seq` and `session_id` are
cleared together by the one handler that clears them — in
`Gateway._run_once` (which also closes with 1000) and in
`ShardClientImpl._keep_alive` — and on a resumable INVALID_SESSION both are
kept; neither handler ever clears one without the other. -/
theorem c4_invalid_session_clears_both (st : GatewayState)
    (conn : ShardConn) :
    (handle_invalid_session st false).1
        = { st with seq := none, session_id := none }
    ∧ (handle_invalid_session st false).2
        = CloseWsCall.close 1000 "invalid session (no resume)"
    ∧ (handle_invalid_session st true).1 = st
    ∧ keep_alive_handle_invalid_session conn false
        = { conn with seq := none, session_id := none }
    ∧ keep_alive_handle_invalid_session conn true = conn :=
  ⟨rfl, rfl, rfl, rfl, rfl⟩

/-- C5 counterexample: 4000 is a server-initiated reconnectable close code
(`can_reconnect_code 4000 = true`), yet on the attempt immediately following
it, started 10 s after the previous one, `_keep_alive` does perform the
backoff sleep — the claim says the delay is zero there. -/
theorem c5_counterexample :
    can_reconnect_code 4000 = true
    ∧ backoff_sleeps
        (do_not_back_off_after (KeepAliveOutcome.serverClosed 4000)) 10
      = true := by
  constructor <;> rfl

/-- C5 (amended): the backoff sleep is skipped on the first attempt and on
the attempt immediately following a Reconnect directive or an
InvalidSession (resumable or not); after a server-initiated reconnectable
close, a zombie, an unexpected socket close, or a connect failure, the
backoff sleep is performed exactly when the previous attempt started less
than 30 seconds earlier. -/
theorem c5_backoff_suppression (e : Rat) :
    backoff_sleeps keep_alive_initial_do_not_back_off e = false
    ∧ backoff_sleeps (do_not_back_off_after KeepAliveOutcome.mustReconnect) e
        = false
    ∧ (∀ b, backoff_sleeps
          (do_not_back_off_after (KeepAliveOutcome.invalidSession b)) e
        = false)
    ∧ (∀ c, backoff_sleeps
          (do_not_back_off_after (KeepAliveOutcome.serverClosed c)) e
        = decide (e < 30))
    ∧ backoff_sleeps (do_not_back_off_after KeepAliveOutcome.zombied) e
        = decide (e < 30)
    ∧ backoff_sleeps
        (do_not_back_off_after KeepAliveOutcome.clientDisconnected) e
        = decide (e < 30)
    ∧ backoff_sleeps
        (do_not_back_off_after KeepAliveOutcome.clientConnectorError) e
        = decide (e < 30) :=
  ⟨rfl, rfl, fun _ => rfl, fun _ => rfl, rfl, rfl, rfl⟩

/-- C6 (code bug): a READY dispatch stores `seq`, `session_id` and sets
handshake-done before forwarding `(t, d)`, and a `"RESUME"` dispatch sets
handshake-done — but the event name Discord actually sends (and the
spec/claim require), `"RESUMED"`, does not match the code's `elif event ==
"RESUME"` comparison, so a RESUMED dispatch only updates `seq` and is
forwarded with handshake-done still unset. -/
theorem c6_dispatch_resumed_not_recognized :
    poll_dispatch_step init_state
        { t := "READY", s := some 1, d := { session_id := some "abc" } }
      = Except.ok
          ({ init_state with
              seq := some 1, session_id := some "abc",
              handshake_set := true },
           ("READY", { session_id := some "abc" }))
    ∧ poll_dispatch_step init_state
        { t := "RESUME", s := some 10, d := { session_id := none } }
      = Except.ok
          ({ init_state with seq := some 10, handshake_set := true },
           ("RESUME", { session_id := none }))
    ∧ poll_dispatch_step init_state
        { t := "RESUMED", s := some 10, d := { session_id := none } }
      = Except.ok
          ({ init_state with seq := some 10 },
           ("RESUMED", { session_id := none }))
    ∧ ({ init_state with seq := some 10 } : GatewayState).handshake_set
        = false :=
  ⟨rfl, rfl, rfl, rfl⟩

/-- C7 (code bug): a whole zlib message ending in the `00 00 FF FF`
sentinel decodes in one frame, but the same message split into two BINARY
frames raises `TypeError` at `buff.append(message.data)` instead of
buffering the second chunk, so the partition never produces the decoded
string. -/
theorem c7_zlib_partition_type_error :
    receive_zlib_message [1, 2, 0, 0, 255, 255] []
      = Except.ok (1, [1, 2, 0, 0, 255, 255])
    ∧ receive_zlib_message [1, 2] [WSFrame.binary [0, 0, 255, 255]]
      = Except.error ZlibRecvError.typeError := by
  constructor <;> rfl

/-- A gateway whose stored presence is idle since the datetime with POSIX
timestamp 2.0 seconds. -/
def c8_state : GatewayState :=
  { init_state with idle_since := PyVal.datetime 2 }

/-- C8 (code bug): the payload built by `_build_presence_payload` has
exactly the fields since/afk/status/game with the claimed defaults and
fallbacks, but `since` is `idle_since.timestamp()` in SECONDS (2 for a
datetime at t = 2 s), not the milliseconds the claim requires — the sibling
builder `_create_presence_pl` in shards.py does multiply by 1000 (and uses
different keys). -/
theorem c8_since_in_seconds :
    build_presence_payload c8_state .unset .unset .unset .unset
      = Except.ok
          { since := PyVal.rat 2, afk := PyVal.bool false,
            status := PyVal.str "online", game := none }
    ∧ create_presence_pl PresenceStatus.online none (some 2) false
      = [("status", PyVal.status PresenceStatus.online),
         ("idle_since", PyVal.rat 2000),
         ("game", PyVal.none),
         ("afk", PyVal.bool false)]
    ∧ PyVal.rat 2 ≠ PyVal.rat (2 * 1000) := by
  refine ⟨rfl, ?_, by norm_num⟩
  norm_num [create_presence_pl]

/-- C9 counterexample: an attempt whose websocket connect succeeds but whose
handshake then fails dispatches DISCONNECTED without any CONNECTED having
been dispatched, refuting the claimed "if and only if". -/
theorem c9_counterexample :
    (run_once_events AttemptScript.handshakeError 0).dispatched_disconnected
      = true
    ∧ (run_once_events AttemptScript.handshakeError 0).dispatched_connected
      = false :=
  ⟨rfl, rfl⟩

/-- C9 (amended): at the end of every connection attempt `connected_at` is
cleared regardless of how the attempt ended, and DISCONNECTED is dispatched
iff the websocket connection was established during the attempt; CONNECTED
is dispatched iff the handshake completed, so every CONNECTED is followed by
a DISCONNECTED, but an attempt that fails between the socket upgrade and the
end of the handshake dispatches DISCONNECTED without a CONNECTED. -/
theorem c9_teardown_events (s : AttemptScript) (now : Rat) :
    (run_once_events s now).connected_at_end = none
    ∧ (run_once_events s now).dispatched_disconnected
        = ws_connect_succeeded s
    ∧ (run_once_events s now).dispatched_connected = handshake_completed s
    ∧ ((run_once_events s now).dispatched_connected
        || (run_once_events s now).dispatched_disconnected)
      = (run_once_events s now).dispatched_disconnected := by
  cases s <;> exact ⟨rfl, rfl, rfl, rfl⟩

/-- C10: `update_presence` is atomic with respect to the stored presence —
if building or sending the PRESENCE_UPDATE frame fails, all four stored
presence fields are unchanged; on success exactly the non-UNSET arguments
are stored and UNSET arguments leave their fields unchanged. -/
theorem c10_update_presence_atomic (st : GatewayState)
    (idle_since is_afk activity status : Upd PyVal) (send_ok : Bool) :
    (∀ e, (update_presence st idle_since is_afk activity status send_ok).2
          = Except.error e →
        (update_presence st idle_since is_afk activity status send_ok).1
          = st)
    ∧ (∀ p, (update_presence st idle_since is_afk activity status send_ok).2
          = Except.ok p →
        (update_presence st idle_since is_afk activity status send_ok).1
          = { st with
                idle_since := fallback_unset idle_since st.idle_since
                is_afk := fallback_unset is_afk st.is_afk
                activity := fallback_unset activity st.activity
                status := fallback_unset status st.status }) := by
  rcases hb : build_presence_payload st idle_since is_afk activity status
    with e | payload
  · constructor
    · intro _ _
      simp [update_presence, hb]
    · intro p hp
      simp [update_presence, hb] at hp
  · cases send_ok
    · constructor
      · intro _ _
        simp [update_presence, hb]
      · intro p hp
        simp [update_presence, hb] at hp
    · constructor
      · intro e he
        simp [update_presence, hb] at he
      · intro p _
        simp [update_presence, hb]

/-- C10 witness: a send failure leaves the state untouched. -/
theorem c10_update_presence_atomic_witness :
    (update_presence init_state .unset .unset .unset .unset false).2
      = Except.error PyErr.sendError
    ∧ (update_presence init_state .unset .unset .unset .unset false).1
      = init_state :=
  ⟨rfl,
   (c10_update_presence_atomic init_state .unset .unset .unset .unset
      false).1 PyErr.sendError rfl⟩

end Hikari
